import Mathlib

/-!
Verification of `bot/review.py` (AI code review helper).

This file gives a shallow embedding of the module `bot/review.py`:

* `build_prompt` — the prompt builder (a Python f-string followed by `.strip()`);
* `review_diff` — the API client: validates the diff, resolves the bearer
  token, issues one HTTP POST (modelled by a `TransportResult` input and a
  list of issued `HttpRequest`s in the result), checks the status code and
  extracts `choices[0].message.content` from the parsed JSON body;
* `main` — the CLI entrypoint mapping outcomes to exit codes and output lines.

Python dynamic values appearing in the response body are modelled by the
`Json` inductive; Python subscripting (`data["choices"]`, `choices[0]`), the
builtin `str`, and `json.dumps` (both the compact default form and the
`indent=2` form used in the malformed-response error message) are modelled
explicitly, including which exception each subscript raises (`KeyError`,
`IndexError`, `TypeError`), because the source catches only
`(KeyError, IndexError)`.

Effects are made explicit: the environment is an `Env` value, the network is
a `TransportResult` input, and `review_diff` returns the list of HTTP
requests it issued alongside its `Except` result, so that "fails before any
network access" is the statement that this list is empty.  An uncaught
Python exception (one that is not an `AIReviewError`) is modelled by the
`ReviewError.typeError` / `ReviewError.jsonDecodeError` constructors, kept
distinct from `ReviewError.ai` which models the tagged `AIReviewError`.
-/

set_option maxRecDepth 8000

/-- Python values that can result from `json.loads` on a response body:
strings, integers, booleans, `None`, lists and string-keyed dicts.
(JSON fractional numbers are not needed by any claim and are omitted;
`int` covers the numeric cases exercised here.) -/
inductive Json where
  | str (s : String)
  | int (n : Int)
  | bool (b : Bool)
  | null
  | arr (xs : List Json)
  | obj (kvs : List (String × Json))

/-- The whitespace set of Python `str.strip()` / `str.isspace()`:
ASCII whitespace, the C1 separators, and the Unicode space characters. -/
def isPySpace (c : Char) : Bool :=
  c.toNat = 9 || c.toNat = 10 || c.toNat = 11 || c.toNat = 12 || c.toNat = 13 ||
  (28 ≤ c.toNat && c.toNat ≤ 32) || c.toNat = 133 || c.toNat = 160 ||
  c.toNat = 5760 || (8192 ≤ c.toNat && c.toNat ≤ 8202) || c.toNat = 8232 ||
  c.toNat = 8233 || c.toNat = 8239 || c.toNat = 8287 || c.toNat = 12288

/-- Python `s.strip()`: remove leading and trailing whitespace. -/
def pyStrip (s : String) : String :=
  String.mk (((s.data.dropWhile isPySpace).reverse.dropWhile isPySpace).reverse)

/-- Python `s.rstrip()`: remove trailing whitespace only (used to state which
part of a diff survives inside the built prompt). -/
def pyRStrip (s : String) : String :=
  String.mk ((s.data.reverse.dropWhile isPySpace).reverse)

/-- One hexadecimal digit, lower case. -/
def hexDigit (n : Nat) : Char :=
  if n < 10 then Char.ofNat (48 + n) else Char.ofNat (87 + n % 16)

/-- Two lower-case hex digits (Python `\xXX` escapes in `repr`). -/
def hex2 (n : Nat) : String :=
  String.mk [hexDigit (n / 16 % 16), hexDigit (n % 16)]

/-- Four lower-case hex digits (JSON `\uXXXX` escapes). -/
def hex4 (n : Nat) : String :=
  String.mk [hexDigit (n / 4096 % 16), hexDigit (n / 256 % 16),
             hexDigit (n / 16 % 16), hexDigit (n % 16)]

/-- Python `repr` of a text string: quote preference (single quotes unless the
string has a single quote and no double quote) and escaping of the quote,
backslash, newline, carriage return, tab and other control characters. -/
def pyReprStr (s : String) : String :=
  let sq := Char.ofNat 39
  let dq := Char.ofNat 34
  let q := if s.data.contains sq && !(s.data.contains dq) then dq else sq
  let esc := fun (c : Char) =>
    if c = '\\' then "\\\\"
    else if c = q then "\\" ++ String.mk [q]
    else if c = '\n' then "\\n"
    else if c = '\r' then "\\r"
    else if c = '\t' then "\\t"
    else if c.toNat < 32 || c.toNat = 127 then "\\x" ++ hex2 c.toNat
    else String.mk [c]
  String.mk [q] ++ String.join (s.data.map esc) ++ String.mk [q]

mutual

/-- Python `repr` on a parsed-JSON value: `repr` of strings, decimal integers,
`True` / `False` / `None`, `[...]` with `, ` separators for lists and
`{k: v, ...}` with `repr`ed keys for dicts. -/
def pyRepr : Json → String
  | .str s => pyReprStr s
  | .int n => toString n
  | .bool b => if b then "True" else "False"
  | .null => "None"
  | .arr xs => "[" ++ pyReprSeq xs ++ "]"
  | .obj kvs => "\x7b" ++ pyReprMap kvs ++ "\x7d"

/-- Comma-separated `repr`s of the elements of a Python list. -/
def pyReprSeq : List Json → String
  | [] => ""
  | [x] => pyRepr x
  | x :: y :: xs => pyRepr x ++ ", " ++ pyReprSeq (y :: xs)

/-- Comma-separated `key: value` renderings of the items of a Python dict. -/
def pyReprMap : List (String × Json) → String
  | [] => ""
  | [(k, v)] => pyReprStr k ++ ": " ++ pyRepr v
  | (k, v) :: p :: xs => pyReprStr k ++ ": " ++ pyRepr v ++ ", " ++ pyReprMap (p :: xs)

end

/-- Python builtin `str` on a parsed-JSON value: the identity on text strings
and `repr`-like rendering on everything else.  This is the "generic string
representation" used by the content-part normalization in the source. -/
def pyStr (j : Json) : String :=
  match j with
  | .str s => s
  | other => pyRepr other

/-- The escape of one character inside a JSON string literal as produced by
Python `json.dumps` with its default `ensure_ascii=True`: the two-character
escapes, `\uXXXX` for other control or non-ASCII characters, and surrogate
pairs for characters beyond the basic multilingual plane. -/
def jsonEscapeChar (c : Char) : String :=
  let dq := Char.ofNat 34
  if c = dq then "\\" ++ String.mk [dq]
  else if c = '\\' then "\\\\"
  else if c = '\n' then "\\n"
  else if c = '\r' then "\\r"
  else if c = '\t' then "\\t"
  else if c.toNat = 8 then "\\b"
  else if c.toNat = 12 then "\\f"
  else if c.toNat < 32 then "\\u" ++ hex4 c.toNat
  else if c.toNat < 127 then String.mk [c]
  else if c.toNat < 65536 then "\\u" ++ hex4 c.toNat
  else
    let v := c.toNat - 65536
    "\\u" ++ hex4 (55296 + v / 1024) ++ "\\u" ++ hex4 (56320 + v % 1024)

/-- A JSON string literal: quotes around the escaped characters. -/
def jsonQuote (s : String) : String :=
  let dq := String.mk [Char.ofNat 34]
  dq ++ String.join (s.data.map jsonEscapeChar) ++ dq

mutual

/-- Python `json.dumps(value)` with the default separators `", "` and `": "`
(used by the source to serialize the request payload). -/
def pyJsonDumps : Json → String
  | .str s => jsonQuote s
  | .int n => toString n
  | .bool b => if b then "true" else "false"
  | .null => "null"
  | .arr xs => "[" ++ pyJsonDumpsSeq xs ++ "]"
  | .obj kvs => "\x7b" ++ pyJsonDumpsMap kvs ++ "\x7d"

/-- Elements of a JSON array, compact form. -/
def pyJsonDumpsSeq : List Json → String
  | [] => ""
  | [x] => pyJsonDumps x
  | x :: y :: xs => pyJsonDumps x ++ ", " ++ pyJsonDumpsSeq (y :: xs)

/-- Items of a JSON object, compact form. -/
def pyJsonDumpsMap : List (String × Json) → String
  | [] => ""
  | [(k, v)] => jsonQuote k ++ ": " ++ pyJsonDumps v
  | (k, v) :: p :: xs => jsonQuote k ++ ": " ++ pyJsonDumps v ++ ", " ++ pyJsonDumpsMap (p :: xs)

end

/-- `2 * d` spaces: the indentation at nesting depth `d` for
`json.dumps(..., indent=2)`. -/
def indentOf (d : Nat) : String :=
  String.mk (List.replicate (2 * d) ' ')

mutual

/-- Python `json.dumps(value, indent=2)` at nesting depth `d` (used by the
source to embed the parsed body in the unexpected-response error message).
Empty arrays and objects stay on one line; non-empty ones put every element
on its own indented line. -/
def pyJsonDumps2 : Nat → Json → String
  | _, .str s => jsonQuote s
  | _, .int n => toString n
  | _, .bool b => if b then "true" else "false"
  | _, .null => "null"
  | _, .arr [] => "[]"
  | d, .arr (x :: xs) =>
    "[\n" ++ pyJsonDumps2Seq (d + 1) (x :: xs) ++ "\n" ++ indentOf d ++ "]"
  | _, .obj [] => "\x7b\x7d"
  | d, .obj (kv :: kvs) =>
    "\x7b\n" ++ pyJsonDumps2Map (d + 1) (kv :: kvs) ++ "\n" ++ indentOf d ++ "\x7d"

/-- Lines of a non-empty JSON array, indented form. -/
def pyJsonDumps2Seq : Nat → List Json → String
  | _, [] => ""
  | d, [x] => indentOf d ++ pyJsonDumps2 d x
  | d, x :: y :: xs =>
    indentOf d ++ pyJsonDumps2 d x ++ ",\n" ++ pyJsonDumps2Seq d (y :: xs)

/-- Lines of a non-empty JSON object, indented form. -/
def pyJsonDumps2Map : Nat → List (String × Json) → String
  | _, [] => ""
  | d, [(k, v)] => indentOf d ++ jsonQuote k ++ ": " ++ pyJsonDumps2 d v
  | d, (k, v) :: p :: xs =>
    indentOf d ++ jsonQuote k ++ ": " ++ pyJsonDumps2 d v ++ ",\n" ++
      pyJsonDumps2Map d (p :: xs)

end

/-- The Python exceptions a subscript expression can raise.  The source wraps
`data["choices"][0]["message"]["content"]` in
`except (KeyError, IndexError)`; a `TypeError` is NOT caught there. -/
inductive PyExc where
  | keyError
  | indexError
  | typeError
deriving DecidableEq

/-- Python `value[key]` for a string key: dict lookup (`KeyError` when the
key is absent), `TypeError` on every non-dict value (including strings and
lists, whose subscripts require integers). -/
def pySubscriptKey : Json → String → Except PyExc Json
  | .obj kvs, k =>
    match kvs.lookup k with
    | some v => .ok v
    | none => .error .keyError
  | _, _ => .error .typeError

/-- Python `value[i]` for a non-negative integer index: list indexing and
string indexing (`IndexError` out of range; indexing a string yields a
one-character string), `KeyError` for dicts parsed from JSON (all their keys
are strings, so an integer key is never present), `TypeError` otherwise. -/
def pySubscriptIdx : Json → Nat → Except PyExc Json
  | .arr xs, i =>
    match xs.get? i with
    | some v => .ok v
    | none => .error .indexError
  | .str s, i =>
    match s.data.get? i with
    | some c => .ok (.str (String.mk [c]))
    | none => .error .indexError
  | .obj _, _ => .error .keyError
  | _, _ => .error .typeError

/-- The navigation `data["choices"][0]["message"]["content"]`, evaluated left
to right with the first exception winning, as in Python. -/
def locateContent (data : Json) : Except PyExc Json := do
  let choices ← pySubscriptKey data "choices"
  let first ← pySubscriptIdx choices 0
  let message ← pySubscriptKey first "message"
  pySubscriptKey message "content"

/-- The per-element normalization of a list-of-parts content: a dict with a
`"text"` entry contributes `str(part["text"])`; every other element
contributes `str(part)`. -/
def partText (part : Json) : String :=
  match part with
  | .obj kvs =>
    match kvs.lookup "text" with
    | some v => pyStr v
    | none => pyStr (.obj kvs)
  | other => pyStr other

/-- The normalization of a located `content` value: a text string is returned
unchanged, a list is mapped through `partText` and joined with newlines, and
anything else is stringified as a fallback. -/
def normalizeContent : Json → String
  | .str s => s
  | .arr parts => String.intercalate "\n" (parts.map partText)
  | other => pyStr other

/-- Errors with which a `review_diff` call can finish abnormally:
`ai msg` is the tagged `AIReviewError` with its message; `typeError` is an
uncaught Python `TypeError` escaping the content navigation; and
`jsonDecodeError` is the uncaught exception of `response.json()` on an
unparseable body (raised outside the `try` block in the source). -/
inductive ReviewError where
  | ai (msg : String)
  | typeError
  | jsonDecodeError
deriving DecidableEq

/-- A simulated HTTP response: the status code, the raw body text, and the
result of parsing the body as JSON (`none` models a parse failure). -/
structure HttpResponse where
  status_code : Nat
  text : String
  jsonBody : Option Json

/-- What the one `requests.post` call does: either raise a
`requests.RequestException` carrying a message, or produce a response. -/
inductive TransportResult where
  | fail (excMsg : String)
  | ok (resp : HttpResponse)

/-- The process environment as far as the module reads it. -/
structure Env where
  githubToken : Option String

/-- An outbound HTTP request as constructed by the source: URL, headers,
serialized body, timeout in seconds. -/
structure HttpRequest where
  url : String
  headers : List (String × String)
  body : String
  timeout : Nat
deriving DecidableEq

def GITHUB_MODELS_ENDPOINT : String :=
  "https://models.github.ai/inference/chat/completions"

def DEFAULT_MODEL : String := "openai/gpt-4o-mini"

/-- The JSON request payload `{model, messages: [{role: "user", content}]} `. -/
def requestPayload (model prompt : String) : Json :=
  .obj [("model", .str model),
        ("messages", .arr [.obj [("role", .str "user"), ("content", .str prompt)]])]

/-- The request headers built by the source. -/
def requestHeaders (token : String) : List (String × String) :=
  [("Authorization", "Bearer " ++ token),
   ("Content-Type", "application/json"),
   ("Accept", "application/json"),
   ("X-GitHub-Api-Version", "2022-11-28")]

def emptyDiffMsg : String := "Empty diff provided; nothing to review."

def missingTokenMsg : String :=
  "Missing GITHUB_TOKEN environment variable. Set it to a GitHub PAT with models:read permissions."

/-- The fixed instructional text of the prompt f-string, part 1 of 4
(section 1, the change overview). -/
def promptPart1 : String :=
  "You are an expert senior code and content reviewer.\nYou receive a unified Git diff. Your tasks are:\n\n1. *Change Overview (what changed vs previous version)*\n- Provide a concise bullet list of the main changes.\n- For each item, mention the file name and a short description.\n- Example: file.txt – new text file added containing a personal message.\n\n"

/-- Part 2 of 4 (section 2, the detailed diff explanation). -/
def promptPart2 : String :=
  "2. *Detailed Diff Explanation (before vs after)*\n- For each file in the diff, explain what changed compared to the previous version:\n    - What was added?\n    - What was removed?\n    - What was modified?\n- When useful, quote small snippets (in backticks) to show the old vs new behavior.\n\n"

/-- Part 3 of 4 (section 3, quality, risks and sensitive content). -/
def promptPart3 : String :=
  "3. *Quality, Risks & Sensitive Content*\n- Highlight bugs, logic issues, readability problems, and code smells.\n- Analyze configuration and text files as well, not only source code.\n- Explicitly flag any *personal, sensitive or inappropriate content* that should not be committed (e.g. names, private messages, secrets).\n- Mention potential security or privacy risks.\n\n"

/-- Part 4 of 4 (section 4 and the lead-in of the required section list,
up to and including the bullet prefix of the first heading). -/
def promptPart4 : String :=
  "4. *Actionable Recommendations*\n- Provide practical suggestions to improve the changes.\n- You can propose refactors, better naming, extra tests, or removal of sensitive data.\n\nRespond in clear Markdown with the following sections:\n\n- "

def headingSummary : String := "Summary of Changes"

def headingFileByFile : String := "File-by-file Diff Explanation"

def headingRisks : String := "Risks & Sensitive Content"

def headingRecommendations : String := "Recommendations"

/-- The tail of the fixed template, after the last heading. -/
def promptTail : String := "\n\nDiff:"

/-- The template text from its first word up to the last heading. -/
def promptHead : String :=
  promptPart1 ++ promptPart2 ++ promptPart3 ++ promptPart4 ++
    headingSummary ++ "\n- " ++ headingFileByFile ++ "\n- " ++
    headingRisks ++ "\n- " ++ headingRecommendations

/-- The fixed template text between the leading newline of the f-string and
the newline that precedes the interpolated diff. -/
def promptCore : String :=
  promptHead ++ promptTail

/-- `build_prompt(diff_text)`: the f-string embeds the diff between the fixed
template and a final newline, and `.strip()` is applied to the whole
resulting string. -/
def build_prompt (diff_text : String) : String :=
  pyStrip ("\n" ++ promptCore ++ "\n" ++ diff_text ++ "\n")

/-- `review_diff(diff_text, model, token)`: the embedding returns the
`Except` outcome together with the list of HTTP requests that were issued
(empty when the function fails before any network access).  The `env` input
models `os.getenv("GITHUB_TOKEN")`, the `transport` input models what the
single `requests.post` call does. -/
def review_diff (diff_text model : String) (token : Option String)
    (env : Env) (transport : TransportResult) :
    Except ReviewError String × List HttpRequest :=
  if pyStrip diff_text = "" then
    (.error (.ai emptyDiffMsg), [])
  else
    let token := match token with
      | none => env.githubToken
      | some t => some t
    match token with
    | none => (.error (.ai missingTokenMsg), [])
    | some t =>
      if t = "" then
        (.error (.ai missingTokenMsg), [])
      else
        let prompt := build_prompt diff_text
        let req : HttpRequest :=
          ⟨GITHUB_MODELS_ENDPOINT, requestHeaders t,
            pyJsonDumps (requestPayload model prompt), 60⟩
        match transport with
        | .fail excMsg =>
          (.error (.ai ("HTTP request failed: " ++ excMsg)), [req])
        | .ok response =>
          if response.status_code ≠ 200 then
            (.error (.ai ("GitHub Models API returned " ++
              toString response.status_code ++ ": " ++ response.text)), [req])
          else
            match response.jsonBody with
            | none => (.error .jsonDecodeError, [req])
            | some data =>
              match locateContent data with
              | .error .keyError =>
                (.error (.ai ("Unexpected response format from API: " ++
                  pyJsonDumps2 0 data)), [req])
              | .error .indexError =>
                (.error (.ai ("Unexpected response format from API: " ++
                  pyJsonDumps2 0 data)), [req])
              | .error .typeError => (.error .typeError, [req])
              | .ok content => (.ok (normalizeContent content), [req])

/-- One line printed by the CLI, tagged with its stream. -/
inductive CliOutput where
  | out (line : String)
  | err (line : String)
deriving DecidableEq

def usageMsg : String := "Usage: python -m bot.review path/to/diff.txt"

namespace bot

/-- `main(argv)`: the CLI entrypoint (namespaced as `bot.main` after the
Python module path `bot.review`).  `fs` models `_read_file` (`.error`
carries the message of the `OSError`), and a `.error` result of `main`
itself models an exception propagating uncaught out of `main` (only the
non-`AIReviewError` outcomes of `review_diff` do that). -/
def main (argv : List String) (fs : String → Except String String)
    (env : Env) (transport : TransportResult) :
    Except ReviewError (Int × List CliOutput) :=
  match argv with
  | _ :: diff_path :: _ =>
    match fs diff_path with
    | .error exc =>
      .ok (1, [.err ("Error reading diff file \x27" ++ diff_path ++ "\x27: " ++ exc)])
    | .ok diff_text =>
      match review_diff diff_text DEFAULT_MODEL none env transport with
      | (.error (.ai msg), _) => .ok (2, [.err ("AI review failed: " ++ msg)])
      | (.error e, _) => .error e
      | (.ok review, _) => .ok (0, [.out review])
  | _ => .ok (1, [.err usageMsg])

end bot

/-- `containsStr s sub` states that `sub` occurs contiguously inside `s`. -/
def containsStr (s sub : String) : Prop :=
  sub.data <:+: s.data

instance (s sub : String) : Decidable (containsStr s sub) :=
  inferInstanceAs (Decidable (sub.data <:+: s.data))

theorem containsStr_part (a sub b : String) : containsStr (a ++ sub ++ b) sub :=
  ⟨a.data, b.data, rfl⟩

theorem containsStr_empty (s : String) : containsStr s "" :=
  ⟨[], s.data, rfl⟩

theorem containsStr_append_of_left {a sub : String} (b : String)
    (h : containsStr a sub) : containsStr (a ++ b) sub := by
  obtain ⟨p, q, hpq⟩ := h
  refine ⟨p, q ++ b.data, ?_⟩
  rw [String.data_append, ← hpq]
  simp [List.append_assoc]

theorem pyStrip_eq_empty_of_all_space {diff : String}
    (h : ∀ c ∈ diff.data, isPySpace c = true) : pyStrip diff = "" := by
  have h1 : diff.data.dropWhile isPySpace = [] :=
    List.dropWhile_eq_nil_iff.mpr (by simpa using h)
  unfold pyStrip
  rw [h1]
  rfl

/-- C1: evidence for the code bug.  A 200 response whose parseable JSON body
has the wrong shape `{"choices": "abc"}` makes the content navigation raise a
`TypeError` (`"a"["message"]` subscripts a string with a string), which the
`except (KeyError, IndexError)` clause of the source does not catch: the
call ends in the uncaught, untagged `TypeError`, not in an `AIReviewError`,
contradicting the spec invariant that a shape mismatch must surface a
recoverable tagged error. -/
theorem review_diff_uncaught_typeError_eval :
    (review_diff "x" DEFAULT_MODEL (some "t") ⟨none⟩
        (.ok ⟨200, "\x7b\"choices\": \"abc\"\x7d",
          some (.obj [("choices", .str "abc")])⟩)).1
      = .error .typeError := rfl

/-- C7: a diff that is empty or made of whitespace only always fails with
the empty-input error, with no HTTP request issued, whatever the model,
token, environment and transport are. -/
theorem review_diff_empty_diff_no_request (diff model : String)
    (token : Option String) (env : Env) (tr : TransportResult)
    (h : ∀ c ∈ diff.data, isPySpace c = true) :
    review_diff diff model token env tr = (.error (.ai emptyDiffMsg), []) := by
  have hstrip : pyStrip diff = "" := pyStrip_eq_empty_of_all_space h
  simp [review_diff, hstrip]

/-- C7 witness: the whitespace-only diff `" \t\n"` fails with the
empty-input error before any network access. -/
theorem review_diff_empty_diff_no_request_witness :
    review_diff " \t\n" "m" none ⟨some "tok"⟩ (.fail "boom")
      = (.error (.ai emptyDiffMsg), []) :=
  review_diff_empty_diff_no_request " \t\n" "m" none ⟨some "tok"⟩ (.fail "boom")
    (by decide)

/-- C8: with a non-whitespace diff, no explicit token and no `GITHUB_TOKEN`
in the environment, the call always fails with the missing-credential error,
with no HTTP request issued. -/
theorem review_diff_missing_token_no_request (diff model : String)
    (tr : TransportResult) (h : pyStrip diff ≠ "") :
    review_diff diff model none ⟨none⟩ tr = (.error (.ai missingTokenMsg), []) := by
  simp [review_diff, h]

/-- C8 witness: the diff `"x"` with no credential available fails with the
missing-credential error before any network access. -/
theorem review_diff_missing_token_no_request_witness :
    review_diff "x" "m" none ⟨none⟩ (.fail "boom")
      = (.error (.ai missingTokenMsg), []) :=
  review_diff_missing_token_no_request "x" "m" (.fail "boom") (by decide)

/-- C10: when an explicit token is passed, the environment variable is never
consulted: the whole result (including the issued requests) is identical for
any two environments; and an explicitly passed empty-string token fails with
the missing-credential error (before any request) even when the environment
variable is set. -/
theorem review_diff_explicit_token_env_independent :
    (∀ diff model t (env1 env2 : Env) tr,
        review_diff diff model (some t) env1 tr
          = review_diff diff model (some t) env2 tr) ∧
    (∀ diff model (env : Env) tr, pyStrip diff ≠ "" →
        review_diff diff model (some "") env tr
          = (.error (.ai missingTokenMsg), [])) := by
  constructor
  · intro diff model t env1 env2 tr
    rfl
  · intro diff model env tr h
    simp [review_diff, h]

/-- C10 witness: at a concrete diff, the result with an explicit token is
the same whether `GITHUB_TOKEN` is set or not, and an explicit empty token
fails with the missing-credential error even with the variable set. -/
theorem review_diff_explicit_token_env_independent_witness :
    (review_diff "x" "m" (some "tok") ⟨some "envtok"⟩ (.fail "boom")
      = review_diff "x" "m" (some "tok") ⟨none⟩ (.fail "boom")) ∧
    (review_diff "x" "m" (some "") ⟨some "envtok"⟩ (.fail "boom")
      = (.error (.ai missingTokenMsg), [])) :=
  ⟨review_diff_explicit_token_env_independent.1 "x" "m" "tok" ⟨some "envtok"⟩ ⟨none⟩
      (.fail "boom"),
   review_diff_explicit_token_env_independent.2 "x" "m" ⟨some "envtok"⟩
      (.fail "boom") (by decide)⟩

/-- C4: when `choices[0].message.content` of a 200 response is a list, the
call returns one text value per element in original order joined with
newlines, each mapping with a `"text"` entry contributing that entry's
string form (`partText` is exactly that per-element rule) and every other
element its generic string representation; extra choices and any raw body
text are irrelevant. -/
theorem review_diff_list_content_joined (diff model t raw : String)
    (parts restChoices : List Json) (env : Env)
    (hd : pyStrip diff ≠ "") (ht : t ≠ "") :
    (review_diff diff model (some t) env (.ok ⟨200, raw,
        some (.obj [("choices",
          .arr (.obj [("message", .obj [("content", .arr parts)])] :: restChoices))])⟩)).1
      = .ok (String.intercalate "\n" (parts.map partText)) := by
  simp only [review_diff, if_neg hd, if_neg ht]
  rfl

/-- C4 witness: content `[{"text":"A"},{"text":"B"}]` yields `"A\nB"`. -/
theorem review_diff_list_content_joined_witness :
    (review_diff "x" DEFAULT_MODEL (some "t") ⟨none⟩ (.ok ⟨200, "",
        some (.obj [("choices",
          .arr [.obj [("message", .obj [("content",
            .arr [.obj [("text", .str "A")], .obj [("text", .str "B")]])])]])])⟩)).1
      = .ok "A\nB" :=
  (review_diff_list_content_joined "x" DEFAULT_MODEL "t" ""
    [.obj [("text", .str "A")], .obj [("text", .str "B")]] [] ⟨none⟩
    (by decide) (by decide)).trans rfl

/-- C5: when `choices[0].message.content` of a 200 response is a plain
string, the call returns that string unchanged. -/
theorem review_diff_string_content_unchanged (diff model t raw s : String)
    (restChoices : List Json) (env : Env)
    (hd : pyStrip diff ≠ "") (ht : t ≠ "") :
    (review_diff diff model (some t) env (.ok ⟨200, raw,
        some (.obj [("choices",
          .arr (.obj [("message", .obj [("content", .str s)])] :: restChoices))])⟩)).1
      = .ok s := by
  simp only [review_diff, if_neg hd, if_neg ht]
  rfl

/-- C5 witness: for status 200 and body
`{"choices":[{"message":{"content":"Hello"}}]}` the result is exactly
`"Hello"`. -/
theorem review_diff_string_content_unchanged_witness :
    (review_diff "x" DEFAULT_MODEL (some "t") ⟨none⟩ (.ok ⟨200,
        "\x7b\"choices\":[\x7b\"message\":\x7b\"content\":\"Hello\"\x7d\x7d]\x7d",
        some (.obj [("choices",
          .arr [.obj [("message", .obj [("content", .str "Hello")])]])])⟩)).1
      = .ok "Hello" :=
  review_diff_string_content_unchanged "x" DEFAULT_MODEL "t"
    "\x7b\"choices\":[\x7b\"message\":\x7b\"content\":\"Hello\"\x7d\x7d]\x7d"
    "Hello" [] ⟨none⟩ (by decide) (by decide)

/-- C6: every response with a non-200 status makes the call fail with the
tagged error, and the message contains both the decimal status code and the
raw body. -/
theorem review_diff_non200_error_message (diff model t raw : String)
    (jb : Option Json) (env : Env) (status : Nat)
    (hd : pyStrip diff ≠ "") (ht : t ≠ "") (hstatus : status ≠ 200) :
    ∃ msg, (review_diff diff model (some t) env (.ok ⟨status, raw, jb⟩)).1
        = .error (.ai msg)
      ∧ containsStr msg (toString status) ∧ containsStr msg raw := by
  refine ⟨"GitHub Models API returned " ++ toString status ++ ": " ++ raw,
    ?_, ?_, ?_⟩
  · simp only [review_diff, if_neg hd, if_neg ht, if_pos hstatus]
  · have h1 : "GitHub Models API returned " ++ toString status ++ ": " ++ raw
        = "GitHub Models API returned " ++ toString status ++ (": " ++ raw) := by
      rw [String.append_assoc]
    rw [h1]
    exact containsStr_part _ _ _
  · have h1 := containsStr_part
      ("GitHub Models API returned " ++ toString status ++ ": ") raw ""
    rwa [String.append_empty] at h1

/-- C6 witness: status 404 with body `"not found"` fails with a message
containing both `404` and `not found`. -/
theorem review_diff_non200_error_message_witness :
    ∃ msg, (review_diff "x" DEFAULT_MODEL (some "t") ⟨none⟩
        (.ok ⟨404, "not found", none⟩)).1 = .error (.ai msg)
      ∧ containsStr msg (toString 404) ∧ containsStr msg "not found" :=
  review_diff_non200_error_message "x" DEFAULT_MODEL "t" "not found" none
    ⟨none⟩ 404 (by decide) (by decide) (by decide)

/-- C2 counterexample: for the simulated 200 response with raw body
`{"choices":[]}` the call does fail with the malformed-response error, but
the error message does NOT contain the literal raw body text: the source
interpolates `json.dumps(data, indent=2)`, a pretty-printed re-serialization
of the parsed body, whose spacing differs from the raw text. -/
theorem malformed_msg_lacks_raw_body :
    (review_diff "x" DEFAULT_MODEL (some "t") ⟨none⟩
        (.ok ⟨200, "\x7b\"choices\":[]\x7d", some (.obj [("choices", .arr [])])⟩)).1
      = .error (.ai "Unexpected response format from API: \x7b\n  \"choices\": []\n\x7d")
    ∧ ¬ containsStr "Unexpected response format from API: \x7b\n  \"choices\": []\n\x7d"
        "\x7b\"choices\":[]\x7d" :=
  ⟨rfl, by decide⟩

/-- C2 amended: for a 200 response whose parsed body is `{"choices":[]}`,
the call fails with the malformed-response error, and the message contains
the 2-space-indented JSON re-serialization of the parsed body (rather than
the literal raw response text). -/
theorem malformed_msg_contains_reserialized_body (diff model t raw : String)
    (env : Env) (hd : pyStrip diff ≠ "") (ht : t ≠ "") :
    ∃ msg, (review_diff diff model (some t) env
        (.ok ⟨200, raw, some (.obj [("choices", .arr [])])⟩)).1 = .error (.ai msg)
      ∧ containsStr msg "\x7b\n  \"choices\": []\n\x7d" := by
  refine ⟨"Unexpected response format from API: " ++ "\x7b\n  \"choices\": []\n\x7d",
    ?_, ?_⟩
  · simp only [review_diff, if_neg hd, if_neg ht]
    rfl
  · have h1 := containsStr_part "Unexpected response format from API: "
      "\x7b\n  \"choices\": []\n\x7d" ""
    rwa [String.append_empty] at h1

/-- C2 amended witness: the concrete simulated response of the claim, with
the raw body text `{"choices":[]}`. -/
theorem malformed_msg_contains_reserialized_body_witness :
    ∃ msg, (review_diff "x" DEFAULT_MODEL (some "t") ⟨none⟩
        (.ok ⟨200, "\x7b\"choices\":[]\x7d", some (.obj [("choices", .arr [])])⟩)).1
        = .error (.ai msg)
      ∧ containsStr msg "\x7b\n  \"choices\": []\n\x7d" :=
  malformed_msg_contains_reserialized_body "x" DEFAULT_MODEL "t"
    "\x7b\"choices\":[]\x7d" ⟨none⟩ (by decide) (by decide)

theorem head_not_space_dropWhile {l : List Char} {c : Char}
    (hc : l.head? = some c) (hneg : isPySpace c = false) :
    l.dropWhile isPySpace = l := by
  cases l with
  | nil => rfl
  | cons a t =>
    have ha : a = c := by simpa using hc
    subst ha
    exact List.dropWhile_cons_of_neg (by simp [hneg])

theorem isEmpty_false_of_head {l : List Char} {c : Char}
    (hc : l.head? = some c) : l.isEmpty = false := by
  cases l with
  | nil => simp at hc
  | cons a t => rfl

theorem dropWhile_append_stop {l₁ l₂ : List Char}
    (h : l₁.dropWhile isPySpace = l₁) (hne : l₁.isEmpty = false) :
    (l₁ ++ l₂).dropWhile isPySpace = l₁ ++ l₂ := by
  rw [List.dropWhile_append, h, hne]
  simp

theorem promptCore_head : promptCore.data.head? = some 'Y' := rfl

theorem promptCore_dropWhile :
    promptCore.data.dropWhile isPySpace = promptCore.data :=
  head_not_space_dropWhile promptCore_head (by decide)

theorem promptCore_rev_head : promptCore.data.reverse.head? = some ':' := by
  rw [show promptCore.data = promptHead.data ++ promptTail.data from rfl,
      List.reverse_append]
  rfl

theorem promptCore_rev_dropWhile :
    promptCore.data.reverse.dropWhile isPySpace = promptCore.data.reverse :=
  head_not_space_dropWhile promptCore_rev_head (by decide)

theorem template_data (diff : String) :
    ("\n" ++ promptCore ++ "\n" ++ diff ++ "\n").data
      = '\n' :: (promptCore.data ++ ('\n' :: (diff.data ++ ['\n']))) := by
  simp [show ("\n" : String).data = ['\n'] from rfl, List.append_assoc]

theorem build_prompt_eq_of_rstrip {diff : String} (h : pyRStrip diff = diff)
    (hne : diff.data ≠ []) :
    build_prompt diff = promptCore ++ "\n" ++ diff := by
  have hdrop : diff.data.reverse.dropWhile isPySpace = diff.data.reverse := by
    have h1 : (diff.data.reverse.dropWhile isPySpace).reverse = diff.data :=
      congrArg String.data h
    have h2 := congrArg List.reverse h1
    simpa using h2
  have hrevne : diff.data.reverse.isEmpty = false := by
    cases hd : diff.data.reverse with
    | nil => exact absurd (by simpa using congrArg List.reverse hd) hne
    | cons a t => rfl
  apply String.ext
  unfold build_prompt pyStrip
  rw [template_data, List.dropWhile_cons_of_pos (by decide)]
  rw [dropWhile_append_stop promptCore_dropWhile
      (isEmpty_false_of_head promptCore_head)]
  have hrev : (promptCore.data ++ ('\n' :: (diff.data ++ ['\n']))).reverse
      = '\n' :: (diff.data.reverse ++ ('\n' :: promptCore.data.reverse)) := by
    simp [List.reverse_append, List.append_assoc]
  rw [hrev, List.dropWhile_cons_of_pos (by decide)]
  rw [dropWhile_append_stop hdrop hrevne]
  simp [List.reverse_append, List.append_assoc,
        show ("\n" : String).data = ['\n'] from rfl]

theorem build_prompt_eq_of_all_space {diff : String}
    (h : ∀ c ∈ diff.data, isPySpace c = true) :
    build_prompt diff = promptCore := by
  apply String.ext
  unfold build_prompt pyStrip
  rw [template_data, List.dropWhile_cons_of_pos (by decide)]
  rw [dropWhile_append_stop promptCore_dropWhile
      (isEmpty_false_of_head promptCore_head)]
  have hrev : (promptCore.data ++ ('\n' :: (diff.data ++ ['\n']))).reverse
      = '\n' :: (diff.data.reverse ++ ('\n' :: promptCore.data.reverse)) := by
    simp [List.reverse_append, List.append_assoc]
  rw [hrev, List.dropWhile_cons_of_pos (by decide)]
  rw [List.dropWhile_append_of_pos
      (by intro a ha; simpa using h a (List.mem_reverse.mp ha))]
  rw [List.dropWhile_cons_of_pos (by decide)]
  rw [promptCore_rev_dropWhile]
  simp

theorem core_has_summary : containsStr promptCore "Summary of Changes" := by
  have h1 := containsStr_part
    (promptPart1 ++ promptPart2 ++ promptPart3 ++ promptPart4)
    "Summary of Changes"
    ("\n- " ++ headingFileByFile ++ "\n- " ++ headingRisks ++ "\n- " ++
      headingRecommendations ++ promptTail)
  have h2 : (promptPart1 ++ promptPart2 ++ promptPart3 ++ promptPart4) ++
      "Summary of Changes" ++
      ("\n- " ++ headingFileByFile ++ "\n- " ++ headingRisks ++ "\n- " ++
        headingRecommendations ++ promptTail) = promptCore := by
    simp only [promptCore, promptHead, headingSummary, String.append_assoc]
  rwa [h2] at h1

theorem core_has_filebyfile :
    containsStr promptCore "File-by-file Diff Explanation" := by
  have h1 := containsStr_part
    (promptPart1 ++ promptPart2 ++ promptPart3 ++ promptPart4 ++
      headingSummary ++ "\n- ")
    "File-by-file Diff Explanation"
    ("\n- " ++ headingRisks ++ "\n- " ++ headingRecommendations ++ promptTail)
  have h2 : (promptPart1 ++ promptPart2 ++ promptPart3 ++ promptPart4 ++
      headingSummary ++ "\n- ") ++ "File-by-file Diff Explanation" ++
      ("\n- " ++ headingRisks ++ "\n- " ++ headingRecommendations ++ promptTail)
      = promptCore := by
    simp only [promptCore, promptHead, headingFileByFile, String.append_assoc]
  rwa [h2] at h1

theorem core_has_risks : containsStr promptCore "Risks & Sensitive Content" := by
  have h1 := containsStr_part
    (promptPart1 ++ promptPart2 ++ promptPart3 ++ promptPart4 ++
      headingSummary ++ "\n- " ++ headingFileByFile ++ "\n- ")
    "Risks & Sensitive Content"
    ("\n- " ++ headingRecommendations ++ promptTail)
  have h2 : (promptPart1 ++ promptPart2 ++ promptPart3 ++ promptPart4 ++
      headingSummary ++ "\n- " ++ headingFileByFile ++ "\n- ") ++
      "Risks & Sensitive Content" ++
      ("\n- " ++ headingRecommendations ++ promptTail) = promptCore := by
    simp only [promptCore, promptHead, headingRisks, String.append_assoc]
  rwa [h2] at h1

theorem core_has_recommendations :
    containsStr promptCore "Recommendations" := by
  have h1 := containsStr_part
    (promptPart1 ++ promptPart2 ++ promptPart3 ++ promptPart4 ++
      headingSummary ++ "\n- " ++ headingFileByFile ++ "\n- " ++
      headingRisks ++ "\n- ")
    "Recommendations" promptTail
  have h2 : (promptPart1 ++ promptPart2 ++ promptPart3 ++ promptPart4 ++
      headingSummary ++ "\n- " ++ headingFileByFile ++ "\n- " ++
      headingRisks ++ "\n- ") ++ "Recommendations" ++ promptTail
      = promptCore := by
    simp only [promptCore, promptHead, headingRecommendations, String.append_assoc]
  rwa [h2] at h1

/-- C3 counterexample: the claim fails for a diff with trailing whitespace.
The one-character diff `"\x0c"` (a form feed, which is whitespace) is NOT a
substring of the built prompt: the template's final `.strip()` removes it,
so the prompt equals the bare template, which contains no form feed. -/
theorem build_prompt_not_verbatim_counterexample :
    ¬ containsStr (build_prompt "\x0c") "\x0c" := by
  have heq : build_prompt "\x0c" = promptCore :=
    build_prompt_eq_of_all_space (by decide)
  rw [heq]
  intro hcon
  have hcon' : ("\x0c" : String).data <:+: promptCore.data := hcon
  have hmem : '\x0c' ∈ promptCore.data := hcon'.subset (by decide)
  revert hmem
  rw [show promptCore.data
      = promptPart1.data ++ (promptPart2.data ++ (promptPart3.data ++
        (promptPart4.data ++ (headingSummary.data ++ (("\n- " : String).data ++
        (headingFileByFile.data ++ (("\n- " : String).data ++
        (headingRisks.data ++ (("\n- " : String).data ++
        (headingRecommendations.data ++ promptTail.data))))))))))
      from by simp [promptCore, promptHead, List.append_assoc]]
  simp only [List.mem_append]
  decide

/-- C3 amended: for every diff text with no trailing whitespace (including
the empty string), the built prompt contains the diff verbatim and all four
required section headings.  (A diff with trailing whitespace appears only
right-stripped, because the source applies `.strip()` to the whole f-string
whose final piece is the interpolated diff; see the counterexample.) -/
theorem build_prompt_contains_diff_and_headings (diff : String)
    (h : pyRStrip diff = diff) :
    containsStr (build_prompt diff) diff ∧
    containsStr (build_prompt diff) "Summary of Changes" ∧
    containsStr (build_prompt diff) "File-by-file Diff Explanation" ∧
    containsStr (build_prompt diff) "Risks & Sensitive Content" ∧
    containsStr (build_prompt diff) "Recommendations" := by
  by_cases hne : diff.data = []
  · have hdiff : diff = "" := String.ext (by simpa using hne)
    subst hdiff
    have heq : build_prompt "" = promptCore :=
      build_prompt_eq_of_all_space (by decide)
    rw [heq]
    exact ⟨containsStr_empty _, core_has_summary, core_has_filebyfile,
      core_has_risks, core_has_recommendations⟩
  · have heq := build_prompt_eq_of_rstrip h hne
    rw [heq]
    refine ⟨?_, ?_, ?_, ?_, ?_⟩
    · have h1 := containsStr_part (promptCore ++ "\n") diff ""
      rwa [String.append_empty] at h1
    · exact containsStr_append_of_left diff
        (containsStr_append_of_left "\n" core_has_summary)
    · exact containsStr_append_of_left diff
        (containsStr_append_of_left "\n" core_has_filebyfile)
    · exact containsStr_append_of_left diff
        (containsStr_append_of_left "\n" core_has_risks)
    · exact containsStr_append_of_left diff
        (containsStr_append_of_left "\n" core_has_recommendations)

/-- C3 amended witness: the concrete diff `"x"` (no trailing whitespace) is
embedded verbatim and the four headings are present. -/
theorem build_prompt_contains_diff_and_headings_witness :
    containsStr (build_prompt "x") "x" ∧
    containsStr (build_prompt "x") "Summary of Changes" ∧
    containsStr (build_prompt "x") "File-by-file Diff Explanation" ∧
    containsStr (build_prompt "x") "Risks & Sensitive Content" ∧
    containsStr (build_prompt "x") "Recommendations" :=
  build_prompt_contains_diff_and_headings "x" (by decide)

/-- C9: the four terminal outcomes of the CLI entrypoint: fewer than two
argv entries print usage on stderr and return 1; an unreadable file prints a
read error on stderr and returns 1; a tagged `AIReviewError` from
`review_diff` prints its message on stderr and returns 2; a successful
review is printed on stdout with return 0.  The final conjunct states the
exhaustiveness: whenever `main` returns (any uncaught exception, modelled by
the `.error` result, never returns), the exit code is 0, 1 or 2 and exactly
one line is printed, on the stream the claim names. -/
theorem main_four_outcomes :
    (∀ argv fs env tr, argv.length < 2 →
        bot.main argv fs env tr = .ok (1, [.err usageMsg])) ∧
    (∀ (a p : String) rest fs env tr exc, fs p = .error exc →
        bot.main (a :: p :: rest) fs env tr
          = .ok (1, [.err ("Error reading diff file \x27" ++ p ++ "\x27: " ++ exc)])) ∧
    (∀ (a p : String) rest fs env tr d msg, fs p = .ok d →
        (review_diff d DEFAULT_MODEL none env tr).1 = .error (.ai msg) →
        bot.main (a :: p :: rest) fs env tr
          = .ok (2, [.err ("AI review failed: " ++ msg)])) ∧
    (∀ (a p : String) rest fs env tr d r, fs p = .ok d →
        (review_diff d DEFAULT_MODEL none env tr).1 = .ok r →
        bot.main (a :: p :: rest) fs env tr = .ok (0, [.out r])) ∧
    (∀ argv fs env tr code outs, bot.main argv fs env tr = .ok (code, outs) →
        (code = 0 ∧ ∃ s, outs = [CliOutput.out s]) ∨
        (code = 1 ∧ ∃ s, outs = [CliOutput.err s]) ∨
        (code = 2 ∧ ∃ s, outs = [CliOutput.err s])) := by
  refine ⟨?_, ?_, ?_, ?_, ?_⟩
  · intro argv fs env tr hlen
    cases argv with
    | nil => rfl
    | cons a tl =>
      cases tl with
      | nil => rfl
      | cons b rest =>
        have hcount : (a :: b :: rest).length = rest.length + 2 := by simp
        omega
  · intro a p rest fs env tr exc hfs
    simp [bot.main, hfs]
  · intro a p rest fs env tr d msg hfs hrd
    cases hpair : review_diff d DEFAULT_MODEL none env tr with
    | mk fst snd =>
      rw [hpair] at hrd
      simp only at hrd
      subst hrd
      simp [bot.main, hfs, hpair]
  · intro a p rest fs env tr d r hfs hrd
    cases hpair : review_diff d DEFAULT_MODEL none env tr with
    | mk fst snd =>
      rw [hpair] at hrd
      simp only at hrd
      subst hrd
      simp [bot.main, hfs, hpair]
  · intro argv fs env tr code outs hmain
    cases argv with
    | nil =>
      simp [bot.main] at hmain
      exact Or.inr (Or.inl ⟨hmain.1.symm, usageMsg, hmain.2.symm⟩)
    | cons a tl =>
      cases tl with
      | nil =>
        simp [bot.main] at hmain
        exact Or.inr (Or.inl ⟨hmain.1.symm, usageMsg, hmain.2.symm⟩)
      | cons p rest =>
        cases hfs : fs p with
        | error exc =>
          simp [bot.main, hfs] at hmain
          exact Or.inr (Or.inl ⟨hmain.1.symm,
            "Error reading diff file \x27" ++ p ++ "\x27: " ++ exc, hmain.2.symm⟩)
        | ok d =>
          cases hpair : review_diff d DEFAULT_MODEL none env tr with
          | mk fst snd =>
            cases fst with
            | error e =>
              cases e with
              | ai msg =>
                simp [bot.main, hfs, hpair] at hmain
                exact Or.inr (Or.inr ⟨hmain.1.symm,
                  "AI review failed: " ++ msg, hmain.2.symm⟩)
              | typeError => simp [bot.main, hfs, hpair] at hmain
              | jsonDecodeError => simp [bot.main, hfs, hpair] at hmain
            | ok r =>
              simp [bot.main, hfs, hpair] at hmain
              exact Or.inl ⟨hmain.1.symm, r, hmain.2.symm⟩

/-- C9 witness: every listed outcome exercised at a concrete input: missing
argv, unreadable file, a tagged error (the empty-diff error), a success
(content `"Hello"`), and the exhaustiveness clause at the usage outcome. -/
theorem main_four_outcomes_witness :
    (bot.main [] (fun _ => .error "boom") ⟨none⟩ (.fail "net")
      = .ok (1, [.err usageMsg])) ∧
    (bot.main ["prog", "f"] (fun _ => .error "boom") ⟨none⟩ (.fail "net")
      = .ok (1, [.err ("Error reading diff file \x27" ++ "f" ++ "\x27: " ++ "boom")])) ∧
    (bot.main ["prog", "f"] (fun _ => .ok "") ⟨none⟩ (.fail "net")
      = .ok (2, [.err ("AI review failed: " ++ emptyDiffMsg)])) ∧
    (bot.main ["prog", "f"] (fun _ => .ok "x") ⟨some "t"⟩ (.ok ⟨200, "",
        some (.obj [("choices",
          .arr [.obj [("message", .obj [("content", .str "Hello")])]])])⟩)
      = .ok (0, [.out "Hello"])) ∧
    (((1 : Int) = 0 ∧ ∃ s, [CliOutput.err usageMsg] = [CliOutput.out s]) ∨
     ((1 : Int) = 1 ∧ ∃ s, [CliOutput.err usageMsg] = [CliOutput.err s]) ∨
     ((1 : Int) = 2 ∧ ∃ s, [CliOutput.err usageMsg] = [CliOutput.err s])) :=
  ⟨main_four_outcomes.1 [] (fun _ => .error "boom") ⟨none⟩ (.fail "net") (by decide),
   main_four_outcomes.2.1 "prog" "f" [] (fun _ => .error "boom") ⟨none⟩
     (.fail "net") "boom" rfl,
   main_four_outcomes.2.2.1 "prog" "f" [] (fun _ => .ok "") ⟨none⟩
     (.fail "net") "" emptyDiffMsg rfl rfl,
   main_four_outcomes.2.2.2.1 "prog" "f" [] (fun _ => .ok "x") ⟨some "t"⟩
     (.ok ⟨200, "", some (.obj [("choices",
        .arr [.obj [("message", .obj [("content", .str "Hello")])]])])⟩)
     "x" "Hello" rfl rfl,
   main_four_outcomes.2.2.2.2 [] (fun _ => .error "boom") ⟨none⟩ (.fail "net")
     1 [CliOutput.err usageMsg] rfl⟩
